import Mathlib

/-!
# Allocation logger (`crates/node-litesvm/lognew.cpp`)

A shallow embedding of the replacement `operator new` / `operator delete`
pair of `lognew.cpp`, followed by the properties of its size check, its
diagnostic line, its failure signalling and its delegation to the platform
allocator.

The platform facilities the file calls (`std::malloc`, `std::free`, the
`%zu` conversion of `fprintf`) are not part of the source: the allocator is a
parameter of the embedding, the conversion is modelled after the C standard.
-/

namespace LogNew

/-! ## Machine arithmetic of the threshold expression -/

/-- Width of `int` on the platforms the addon is built for. -/
def INT_BITS : Nat := 32

/-- Least value of `int`. -/
def INT_MIN : Int := -(2 ^ (INT_BITS - 1))

/-- Greatest value of `int`. -/
def INT_MAX : Int := 2 ^ (INT_BITS - 1) - 1

/-- Whether a mathematical integer is representable as an `int`. -/
def int_representable (x : Int) : Bool := decide (INT_MIN ≤ x) && decide (x ≤ INT_MAX)

/-- What a two's-complement `int` holds after computing the mathematical
value `x`: the representative of `x` modulo `2 ^ INT_BITS` in
`[INT_MIN, INT_MAX]`. -/
def int_wrap (x : Int) : Int := (x - INT_MIN) % 2 ^ INT_BITS + INT_MIN

/-- Product of two `int` operands, `a * b` in the source language. -/
def int_mul (a b : Int) : Int := int_wrap (a * b)

/-- Whether `a * b` on `int` operands leaves the range of `int`. -/
def int_mul_overflows (a b : Int) : Bool := !int_representable (a * b)

/-- The expression `64 * 1024 * 1024` of the source, of type `int`,
evaluated left to right. -/
def THRESHOLD_int : Int := int_mul (int_mul 64 1024) 1024

/-- Conversion of an `int` to the unsigned type `std::size_t` of width `w`:
reduction modulo `2 ^ w`. -/
def to_size_t (w : Nat) (x : Int) : Nat := (x % 2 ^ w).toNat

/-- Right operand of `sz > 64 * 1024 * 1024` after the usual arithmetic
conversions, for a `std::size_t` of `w` bits (`w` at least `INT_BITS`, so
that the `int` operand is the one converted). -/
def THRESHOLD (w : Nat) : Nat := to_size_t w THRESHOLD_int

/-! ## Pointers, exceptions, events -/

/-- Value of a `void*`; `null` is the null pointer. -/
abbrev Ptr := Nat

/-- The null pointer. -/
def null : Ptr := 0

/-- Exception types of the header `<new>`. -/
inductive Exn where
  | bad_alloc
  | bad_array_new_length
  deriving DecidableEq, Repr

/-- Observable actions of a call, in program order. -/
inductive Event where
  | stderr_write (text : String)
  | malloc_call (size : Nat)
  | free_call (p : Ptr)
  deriving DecidableEq, Repr

/-- The platform allocator over a heap state `σ`: `malloc` yields a pointer
(possibly `null`) and the next heap, `free` yields the next heap. -/
structure Sys (σ : Type) where
  malloc : Nat → σ → Ptr × σ
  free : Ptr → σ → σ

/-- What a call leaves behind: the events it produced, its result (a value
or a thrown exception) and the heap afterwards. -/
structure Outcome (σ α : Type) where
  events : List Event
  result : Except Exn α
  heap : σ

/-! ## The `%zu` conversion and the format string -/

/-- Character of a decimal digit `d < 10`. -/
def digit_char (d : Nat) : Char := Char.ofNat (48 + d)

/-- Modelled from the spec: the digit loop behind the `%zu` conversion
belongs to the C library and is not in the source. The least significant
digit of `n` is put in front of `acc`, and the loop goes on with `n / 10`
until that is zero. -/
def zu_loop : Nat → Nat → List Char → List Char
  | 0, _, acc => acc
  | fuel + 1, n, acc =>
    let acc1 := digit_char (n % 10) :: acc
    if n / 10 = 0 then acc1 else zu_loop fuel (n / 10) acc1

/-- Modelled from the spec: the `%zu` conversion of the C library's
`fprintf`, which is not in the source; the interface fixes its output as the
byte count in decimal with no leading zeros, separators or suffix. Here: `n`
in decimal, most significant digit first. The loop runs once per digit, so
`n + 1` rounds are enough. -/
def fmt_zu (n : Nat) : List Char := zu_loop (n + 1) n []

/-- Modelled from the spec: format expansion of the C library's `fprintf`,
which is not in the source, for a format string whose conversions are `%zu`,
all reading the one argument `arg`; every other character is copied. -/
def format_zu : List Char → Nat → List Char
  | [], _ => []
  | '%' :: 'z' :: 'u' :: rest, arg => fmt_zu arg ++ format_zu rest arg
  | c :: rest, arg => c :: format_zu rest arg

/-- The call `fprintf(stderr, fmt, arg)`: one write of the expanded text. -/
def fprintf_stderr (fmt : String) (arg : Nat) : Event :=
  Event.stderr_write (String.mk (format_zu fmt.data arg))

/-! ## The two replaced functions -/

/-- The function `void* operator new(std::size_t sz)` for a `std::size_t` of `w` bits. -/
def operator_new {σ : Type} (w : Nat) (sys : Sys σ) (sz : Nat) (h : σ) : Outcome σ Ptr :=
  let log : List Event :=
    if sz > THRESHOLD w then [fprintf_stderr "new(%zu)\n" sz] else []
  let r := sys.malloc sz h
  let events := log ++ [Event.malloc_call sz]
  let p := r.1
  if p = null then ⟨events, Except.error Exn.bad_alloc, r.2⟩
  else ⟨events, Except.ok p, r.2⟩

/-- The function `void operator delete(void* p) noexcept`. -/
def operator_delete {σ : Type} (sys : Sys σ) (p : Ptr) (h : σ) : Outcome σ Unit :=
  ⟨[Event.free_call p], Except.ok (), sys.free p h⟩

/-! ## Reading a trace -/

/-- The texts written to standard error, in order. -/
def stderr_writes : List Event → List String
  | [] => []
  | Event.stderr_write s :: es => s :: stderr_writes es
  | _ :: es => stderr_writes es

/-- The arguments of the calls of `malloc`, in order. -/
def malloc_calls : List Event → List Nat
  | [] => []
  | Event.malloc_call n :: es => n :: malloc_calls es
  | _ :: es => malloc_calls es

/-- The arguments of the calls of `free`, in order. -/
def free_calls : List Event → List Ptr
  | [] => []
  | Event.free_call p :: es => p :: free_calls es
  | _ :: es => free_calls es

/-! ## Sample allocators -/

/-- An allocator that never has memory: `malloc` returns `null`. -/
def failing_sys : Sys Unit := ⟨fun _ _ => (null, ()), fun _ _ => ()⟩

/-- A bump allocator over addresses below `limit`: the heap state is the
next free address, a request of zero bytes takes one byte, and `malloc`
returns `null` when the request does not fit. -/
def bump_sys (limit : Nat) : Sys Nat :=
  ⟨fun n next => if next + max n 1 ≤ limit then (next, next + max n 1) else (null, next),
   fun _ next => next⟩

/-- The same bump allocator for a platform whose `malloc` answers a request
of zero bytes with `null`, as the C standard allows. -/
def zero_null_sys (limit : Nat) : Sys Nat :=
  ⟨fun n next =>
     if n = 0 then (null, next)
     else if next + n ≤ limit then (next, next + n) else (null, next),
   fun _ next => next⟩

/-! ## Reading the diagnostic line back -/

/-- The line the interface documents for a logged request: `new(`, the size
in decimal, `)` and a newline. -/
def expected_line (sz : Nat) : String := String.mk ("new(".data ++ fmt_zu sz ++ ")\n".data)

/-- Value of a decimal digit character, `none` for any other character. -/
def digit_value (c : Char) : Option Nat :=
  if c.isDigit then some (c.toNat - 48) else none

/-- Base-10 reading of the characters `cs` after the value `acc` of the
characters before them; `none` as soon as a character is not a digit. -/
def parse_dec_loop : List Char → Nat → Option Nat
  | [], acc => some acc
  | c :: cs, acc =>
    match digit_value c with
    | none => none
    | some d => parse_dec_loop cs (acc * 10 + d)

/-- Base-10 reading of a non-empty string of digits. -/
def parse_dec (cs : List Char) : Option Nat :=
  if cs = [] then none else parse_dec_loop cs 0

/-! ## Evaluation on concrete inputs -/

theorem THRESHOLD_64_eval : THRESHOLD 64 = 67108864 := by decide

theorem fmt_zu_eval : fmt_zu 67108865 = "67108865".data := by decide

theorem fmt_zu_zero_eval : fmt_zu 0 = "0".data := by decide

theorem format_zu_eval :
    format_zu "new(%zu)\n".data 67108865 = "new(67108865)\n".data := by decide

theorem operator_new_failing_eval :
    (operator_new 64 failing_sys 67108865 ()).events
      = [Event.stderr_write "new(67108865)\n", Event.malloc_call 67108865] := by decide

theorem operator_new_bump_eval :
    (operator_new 64 (bump_sys (2 ^ 40)) 100 1).result = Except.ok 1 := rfl

theorem parse_dec_eval : parse_dec (fmt_zu 67108865) = some 67108865 := by decide

theorem parse_dec_reject_eval : parse_dec "12a".data = none := by decide

/-! ## Auxiliary facts -/

theorem THRESHOLD_int_eq : THRESHOLD_int = 67108864 := by decide

theorem THRESHOLD_eq (w : Nat) (hw : 32 ≤ w) : THRESHOLD w = 67108864 := by
  have h32 : (2 : Int) ^ 32 ≤ 2 ^ w := pow_le_pow_right₀ (by norm_num) hw
  have hlt : (67108864 : Int) < 2 ^ w := lt_of_lt_of_le (by norm_num) h32
  unfold THRESHOLD to_size_t
  rw [THRESHOLD_int_eq, Int.emod_eq_of_lt (by norm_num) hlt]
  rfl

theorem format_zu_line (sz : Nat) :
    format_zu "new(%zu)\n".data sz = "new(".data ++ fmt_zu sz ++ ")\n".data := by
  rfl

theorem fprintf_stderr_line (sz : Nat) :
    fprintf_stderr "new(%zu)\n" sz = Event.stderr_write (expected_line sz) := by
  rfl

theorem operator_new_events {σ : Type} (w : Nat) (sys : Sys σ) (sz : Nat) (h : σ) :
    (operator_new w sys sz h).events =
      (if sz > THRESHOLD w then [Event.stderr_write (expected_line sz)] else [])
        ++ [Event.malloc_call sz] := by
  simp only [operator_new, fprintf_stderr_line]
  by_cases hp : (sys.malloc sz h).1 = null <;> simp only [hp, if_true, if_false]

theorem operator_new_result {σ : Type} (w : Nat) (sys : Sys σ) (sz : Nat) (h : σ) :
    (operator_new w sys sz h).result =
      if (sys.malloc sz h).1 = null then Except.error Exn.bad_alloc
      else Except.ok (sys.malloc sz h).1 := by
  simp only [operator_new]
  by_cases hp : (sys.malloc sz h).1 = null <;> simp only [hp, if_true, if_false]

theorem operator_new_heap {σ : Type} (w : Nat) (sys : Sys σ) (sz : Nat) (h : σ) :
    (operator_new w sys sz h).heap = (sys.malloc sz h).2 := by
  simp only [operator_new]
  by_cases hp : (sys.malloc sz h).1 = null <;> simp only [hp, if_true, if_false]

/-! ### Trace readers on the two shapes of trace -/

theorem stderr_writes_append (xs ys : List Event) :
    stderr_writes (xs ++ ys) = stderr_writes xs ++ stderr_writes ys := by
  induction xs with
  | nil => rfl
  | cons e es ih => cases e <;> simp [stderr_writes, ih]

theorem malloc_calls_append (xs ys : List Event) :
    malloc_calls (xs ++ ys) = malloc_calls xs ++ malloc_calls ys := by
  induction xs with
  | nil => rfl
  | cons e es ih => cases e <;> simp [malloc_calls, ih]

theorem operator_new_stderr {σ : Type} (w : Nat) (sys : Sys σ) (sz : Nat) (h : σ) :
    stderr_writes (operator_new w sys sz h).events =
      if sz > THRESHOLD w then [expected_line sz] else [] := by
  rw [operator_new_events, stderr_writes_append]
  split <;> simp [stderr_writes]

/-! ### The decimal conversion against `Nat.digits` -/

theorem digit_value_digit_char : ∀ d, d < 10 → digit_value (digit_char d) = some d := by
  decide

theorem digit_char_mem : ∀ d, d < 10 → digit_char d ∈ "0123456789".data := by decide

theorem digit_char_ne_zero : ∀ d, d < 10 → d ≠ 0 → digit_char d ≠ '0' := by decide

theorem zu_loop_eq_digits (f : Nat) : ∀ (n : Nat) (acc : List Char), 0 < n → n < f →
    zu_loop f n acc = (Nat.digits 10 n).reverse.map digit_char ++ acc := by
  induction f with
  | zero => intro n acc _ hf; omega
  | succ f ih =>
    intro n acc hn hf
    rw [Nat.digits_def' (by norm_num) hn]
    simp only [zu_loop]
    by_cases hq : n / 10 = 0
    · simp [hq]
    · rw [if_neg hq, ih (n / 10) _ (Nat.pos_of_ne_zero hq) (by omega)]
      simp

theorem fmt_zu_eq_digits (n : Nat) (hn : 0 < n) :
    fmt_zu n = (Nat.digits 10 n).reverse.map digit_char := by
  unfold fmt_zu
  rw [zu_loop_eq_digits (n + 1) n [] hn (by omega), List.append_nil]

theorem fmt_zu_mem_decimal (n : Nat) : ∀ c ∈ fmt_zu n, c ∈ "0123456789".data := by
  rcases Nat.eq_zero_or_pos n with h0 | hn
  · subst h0; decide
  · rw [fmt_zu_eq_digits n hn]
    intro c hc
    simp only [List.mem_map, List.mem_reverse] at hc
    obtain ⟨d, hd, rfl⟩ := hc
    exact digit_char_mem d (Nat.digits_lt_base (by norm_num) hd)

theorem fmt_zu_ne_nil (n : Nat) : fmt_zu n ≠ [] := by
  rcases Nat.eq_zero_or_pos n with h0 | hn
  · subst h0; decide
  · rw [fmt_zu_eq_digits n hn]
    simp [Nat.digits_ne_nil_iff_ne_zero, Nat.pos_iff_ne_zero.mp hn]

theorem fmt_zu_head (n : Nat) (hn : 0 < n) : (fmt_zu n).head? ≠ some '0' := by
  have hne : Nat.digits 10 n ≠ [] := Nat.digits_ne_nil_iff_ne_zero.mpr (Nat.pos_iff_ne_zero.mp hn)
  have hlast := Nat.getLast_digit_ne_zero 10 (Nat.pos_iff_ne_zero.mp hn)
  have hlt : (Nat.digits 10 n).getLast hne < 10 :=
    Nat.digits_lt_base (by norm_num) (List.getLast_mem hne)
  rw [fmt_zu_eq_digits n hn, List.head?_map, List.head?_reverse,
    List.getLast?_eq_getLast _ hne]
  simp only [Option.map_some', ne_eq, Option.some.injEq]
  exact digit_char_ne_zero _ hlt hlast

theorem parse_dec_loop_append (xs ys : List Char) : ∀ acc,
    parse_dec_loop (xs ++ ys) acc = (parse_dec_loop xs acc).bind (parse_dec_loop ys) := by
  induction xs with
  | nil => intro acc; rfl
  | cons c cs ih =>
    intro acc
    simp only [List.cons_append, parse_dec_loop]
    cases digit_value c with
    | none => rfl
    | some d => exact ih _

theorem parse_dec_loop_digits (l : List Nat) (hl : ∀ d ∈ l, d < 10) :
    parse_dec_loop (l.reverse.map digit_char) 0 = some (Nat.ofDigits 10 l) := by
  induction l with
  | nil => rfl
  | cons d ds ih =>
    have hd : d < 10 := hl d (List.mem_cons_self _ _)
    have hds : ∀ x ∈ ds, x < 10 := fun x hx => hl x (List.mem_cons_of_mem _ hx)
    rw [List.reverse_cons, List.map_append, parse_dec_loop_append, ih hds]
    simp only [List.map_cons, List.map_nil, Option.some_bind, parse_dec_loop,
      digit_value_digit_char d hd, Nat.ofDigits_cons]
    congr 1
    omega

theorem parse_dec_fmt_zu (n : Nat) : parse_dec (fmt_zu n) = some n := by
  rcases Nat.eq_zero_or_pos n with h0 | hn
  · subst h0; decide
  · unfold parse_dec
    rw [if_neg (fmt_zu_ne_nil n), fmt_zu_eq_digits n hn,
      parse_dec_loop_digits _ (fun d hd => Nat.digits_lt_base (by norm_num) hd),
      Nat.ofDigits_digits]

theorem fmt_zu_injective (m n : Nat) (h : fmt_zu m = fmt_zu n) : m = n := by
  have hm := parse_dec_fmt_zu m
  rw [h, parse_dec_fmt_zu n] at hm
  exact (Option.some.inj hm).symm

theorem expected_line_injective (m n : Nat) (h : expected_line m = expected_line n) :
    m = n := by
  unfold expected_line at h
  have h1 : "new(".data ++ fmt_zu m ++ ")\n".data = "new(".data ++ fmt_zu n ++ ")\n".data :=
    congrArg String.data h
  exact fmt_zu_injective m n (List.append_cancel_left (List.append_cancel_right h1))

/-! ## The size check -/

/-- C1: for every requested size `sz ≤ 67108864` (the boundary included) and
every behaviour of the allocation primitive, `operator new` writes nothing to
standard error; its only event is the call of the primitive. -/
theorem operator_new_silent_up_to_threshold {σ : Type} (w : Nat) (sys : Sys σ) (sz : Nat)
    (h : σ) (hw : 32 ≤ w) (hsz : sz ≤ 67108864) :
    stderr_writes (operator_new w sys sz h).events = [] ∧
      (operator_new w sys sz h).events = [Event.malloc_call sz] := by
  have hcmp : ¬ sz > THRESHOLD w := by rw [THRESHOLD_eq w hw]; omega
  constructor
  · rw [operator_new_stderr, if_neg hcmp]
  · rw [operator_new_events, if_neg hcmp]
    rfl

/-- C1 at the boundary `sz = 67108864` and at `sz = 100`, with a failing and
with a succeeding allocator. -/
theorem operator_new_silent_up_to_threshold_witness :
    (32 ≤ 64 ∧ 67108864 ≤ 67108864) ∧
      (stderr_writes (operator_new 64 failing_sys 67108864 ()).events = [] ∧
        (operator_new 64 failing_sys 67108864 ()).events = [Event.malloc_call 67108864]) ∧
      (stderr_writes (operator_new 64 (bump_sys (2 ^ 40)) 100 1).events = [] ∧
        (operator_new 64 (bump_sys (2 ^ 40)) 100 1).events = [Event.malloc_call 100]) :=
  ⟨⟨by decide, by decide⟩,
    operator_new_silent_up_to_threshold 64 failing_sys 67108864 () (by decide) (by decide),
    operator_new_silent_up_to_threshold 64 (bump_sys (2 ^ 40)) 100 1 (by decide) (by decide)⟩

/-- C2: for every requested size `sz > 67108864`, `operator new` writes to
standard error exactly one text, the line `new(<sz in decimal>)` with its
newline, and nothing else; the write is followed by the call of the
primitive. -/
theorem operator_new_logs_above_threshold {σ : Type} (w : Nat) (sys : Sys σ) (sz : Nat)
    (h : σ) (hw : 32 ≤ w) (hsz : 67108864 < sz) :
    stderr_writes (operator_new w sys sz h).events
        = [String.mk ("new(".data ++ fmt_zu sz ++ ")\n".data)] ∧
      (operator_new w sys sz h).events
        = [Event.stderr_write (String.mk ("new(".data ++ fmt_zu sz ++ ")\n".data)),
            Event.malloc_call sz] := by
  have hcmp : sz > THRESHOLD w := by rw [THRESHOLD_eq w hw]; omega
  constructor
  · rw [operator_new_stderr, if_pos hcmp]
    rfl
  · rw [operator_new_events, if_pos hcmp]
    rfl

/-- C2 at `sz = 67108865`: standard error receives exactly `new(67108865)`
and a newline. -/
theorem operator_new_logs_above_threshold_witness :
    (32 ≤ 64 ∧ 67108864 < 67108865) ∧
      stderr_writes (operator_new 64 (bump_sys (2 ^ 40)) 67108865 1).events
        = ["new(67108865)\n"] :=
  ⟨⟨by decide, by decide⟩,
    (operator_new_logs_above_threshold 64 (bump_sys (2 ^ 40)) 67108865 1
      (by decide) (by decide)).1.trans (by decide)⟩

/-! ## Failure signalling -/

/-- C3: for every size, `operator new` throws `std::bad_alloc` exactly when
the allocation primitive returns `null` for that size; otherwise it returns
the very pointer the primitive returned. It never returns `null`, and
`std::bad_alloc` is the only exception it throws. -/
theorem operator_new_throws_iff_malloc_null {σ : Type} (w : Nat) (sys : Sys σ) (sz : Nat)
    (h : σ) :
    ((operator_new w sys sz h).result = Except.error Exn.bad_alloc
        ↔ (sys.malloc sz h).1 = null) ∧
      ((sys.malloc sz h).1 ≠ null →
        (operator_new w sys sz h).result = Except.ok (sys.malloc sz h).1) ∧
      (operator_new w sys sz h).result ≠ Except.ok null ∧
      (∀ e, (operator_new w sys sz h).result = Except.error e → e = Exn.bad_alloc) := by
  rw [operator_new_result]
  by_cases hp : (sys.malloc sz h).1 = null
  · rw [if_pos hp]
    refine ⟨⟨fun _ => hp, fun _ => rfl⟩, fun hne => absurd hp hne, fun hc => ?_,
      fun e he => ?_⟩
    · cases hc
    · cases he
      rfl
  · rw [if_neg hp]
    refine ⟨⟨fun hc => ?_, fun hc => absurd hc hp⟩, fun _ => rfl, fun hc => ?_,
      fun e he => ?_⟩
    · cases hc
    · exact hp (Except.ok.inj hc)
    · cases he

/-- C3 on an allocator that fails (the request exceeds the arena) and on one
that succeeds. -/
theorem operator_new_throws_iff_malloc_null_witness :
    ((bump_sys 4096).malloc 5000 1).1 = null ∧
      (operator_new 64 (bump_sys 4096) 5000 1).result = Except.error Exn.bad_alloc ∧
      ((bump_sys 4096).malloc 100 1).1 ≠ null ∧
      (operator_new 64 (bump_sys 4096) 100 1).result = Except.ok 1 :=
  ⟨by decide,
    (operator_new_throws_iff_malloc_null 64 (bump_sys 4096) 5000 1).1.mpr (by decide),
    by decide,
    (operator_new_throws_iff_malloc_null 64 (bump_sys 4096) 100 1).2.1 (by decide)⟩

/-- C4: what `operator new` writes to standard error depends on the requested
size alone: for any two allocators and heaps the texts written for the same
size are the same; and above the threshold, when the primitive fails, the
line is still written once, before the call of the primitive, and
`std::bad_alloc` is thrown. -/
theorem operator_new_stderr_independent_of_outcome {σ₁ σ₂ : Type} (w : Nat)
    (sys₁ : Sys σ₁) (sys₂ : Sys σ₂) (sz : Nat) (h₁ : σ₁) (h₂ : σ₂) :
    stderr_writes (operator_new w sys₁ sz h₁).events
        = stderr_writes (operator_new w sys₂ sz h₂).events ∧
      (32 ≤ w → 67108864 < sz → (sys₂.malloc sz h₂).1 = null →
        (operator_new w sys₂ sz h₂).events
            = [Event.stderr_write (expected_line sz), Event.malloc_call sz] ∧
          (operator_new w sys₂ sz h₂).result = Except.error Exn.bad_alloc) := by
  refine ⟨by rw [operator_new_stderr, operator_new_stderr], fun hw hsz hfail => ?_⟩
  have hcmp : sz > THRESHOLD w := by rw [THRESHOLD_eq w hw]; omega
  constructor
  · rw [operator_new_events, if_pos hcmp]
    rfl
  · rw [operator_new_result, if_pos hfail]

/-- C4 at `sz = 67108865` with a succeeding and a failing allocator. -/
theorem operator_new_stderr_independent_of_outcome_witness :
    (operator_new 64 (bump_sys (2 ^ 40)) 67108865 1).result = Except.ok 1 ∧
      stderr_writes (operator_new 64 (bump_sys (2 ^ 40)) 67108865 1).events
        = stderr_writes (operator_new 64 failing_sys 67108865 ()).events ∧
      (operator_new 64 failing_sys 67108865 ()).events
        = [Event.stderr_write "new(67108865)\n", Event.malloc_call 67108865] ∧
      (operator_new 64 failing_sys 67108865 ()).result = Except.error Exn.bad_alloc :=
  ⟨rfl,
    (operator_new_stderr_independent_of_outcome 64 (bump_sys (2 ^ 40)) failing_sys
      67108865 1 ()).1,
    (operator_new_stderr_independent_of_outcome 64 (bump_sys (2 ^ 40)) failing_sys
      67108865 1 ()).2 (by decide) (by decide) rfl⟩

/-- C5, as stated, fails: with an allocator that fails and a request of
67108865 bytes, `operator new` throws `std::bad_alloc` and the line
`new(67108865)` has been written to standard error. -/
theorem failed_request_is_logged_counterexample :
    (failing_sys.malloc 67108865 ()).1 = null ∧
      (operator_new 64 failing_sys 67108865 ()).result = Except.error Exn.bad_alloc ∧
      stderr_writes (operator_new 64 failing_sys 67108865 ()).events = ["new(67108865)\n"] ∧
      stderr_writes (operator_new 64 failing_sys 67108865 ()).events ≠ [] :=
  ⟨rfl, rfl, by decide, by decide⟩

/-- C5, amended: when the allocation primitive returns `null`, `operator
new` throws `std::bad_alloc` and returns no pointer; standard error receives
nothing for a request of at most 67108864 bytes, and exactly the line
`new(<sz>)` for a larger one. -/
theorem operator_new_failure_outcome {σ : Type} (w : Nat) (sys : Sys σ) (sz : Nat) (h : σ)
    (hw : 32 ≤ w) (hfail : (sys.malloc sz h).1 = null) :
    (operator_new w sys sz h).result = Except.error Exn.bad_alloc ∧
      (∀ p, (operator_new w sys sz h).result ≠ Except.ok p) ∧
      (sz ≤ 67108864 → stderr_writes (operator_new w sys sz h).events = []) ∧
      (67108864 < sz →
        stderr_writes (operator_new w sys sz h).events = [expected_line sz]) := by
  have hres : (operator_new w sys sz h).result = Except.error Exn.bad_alloc := by
    rw [operator_new_result, if_pos hfail]
  refine ⟨hres, fun p hp => ?_, fun hsz => ?_, fun hsz => ?_⟩
  · rw [hres] at hp
    cases hp
  · rw [operator_new_stderr, if_neg (by rw [THRESHOLD_eq w hw]; omega)]
  · rw [operator_new_stderr, if_pos (by rw [THRESHOLD_eq w hw]; omega)]

/-- C5, amended, at a failing request of 100 bytes: the exception and no
output. -/
theorem operator_new_failure_outcome_witness :
    (32 ≤ 64 ∧ (failing_sys.malloc 100 ()).1 = null) ∧
      (operator_new 64 failing_sys 100 ()).result = Except.error Exn.bad_alloc ∧
      stderr_writes (operator_new 64 failing_sys 100 ()).events = [] :=
  ⟨⟨by decide, rfl⟩,
    (operator_new_failure_outcome 64 failing_sys 100 () (by decide) rfl).1,
    (operator_new_failure_outcome 64 failing_sys 100 () (by decide) rfl).2.2.1 (by decide)⟩

/-! ## Delegation -/

/-- C6: for every size, `operator new` calls the allocation primitive exactly
once, with the requested size unchanged; the call is the last event, every
event before it is a write to standard error, and the heap afterwards is the
one that single call left, also when the call failed. -/
theorem operator_new_calls_malloc_once {σ : Type} (w : Nat) (sys : Sys σ) (sz : Nat)
    (h : σ) :
    malloc_calls (operator_new w sys sz h).events = [sz] ∧
      (∃ pre, (operator_new w sys sz h).events = pre ++ [Event.malloc_call sz] ∧
        ∀ e ∈ pre, ∃ text, e = Event.stderr_write text) ∧
      (operator_new w sys sz h).heap = (sys.malloc sz h).2 := by
  refine ⟨?_, ?_, operator_new_heap w sys sz h⟩
  · rw [operator_new_events, malloc_calls_append]
    split <;> rfl
  · refine ⟨_, operator_new_events w sys sz h, fun e he => ?_⟩
    split at he
    · exact ⟨_, List.mem_singleton.mp he⟩
    · cases he

/-- C7: for every pointer, `null` and the results of `operator new`
included, `operator delete` calls the deallocation primitive exactly once
with that pointer, whatever the pointer is, writes nothing to standard error
and throws nothing. -/
theorem operator_delete_calls_free_once {σ : Type} (sys : Sys σ) (p : Ptr) (h : σ) :
    (operator_delete sys p h).events = [Event.free_call p] ∧
      free_calls (operator_delete sys p h).events = [p] ∧
      stderr_writes (operator_delete sys p h).events = [] ∧
      (operator_delete sys p h).result = Except.ok () ∧
      (operator_delete sys p h).heap = sys.free p h ∧
      (∀ (w sz : Nat) (h0 : σ), (operator_new w sys sz h0).result = Except.ok p →
        (operator_delete sys p (operator_new w sys sz h0).heap).events
            = [Event.free_call p] ∧
          (operator_delete sys p (operator_new w sys sz h0).heap).result = Except.ok ()) :=
  ⟨rfl, rfl, rfl, rfl, rfl, fun _ _ _ _ => ⟨rfl, rfl⟩⟩

/-- C7 on the null pointer and on the pointer returned for a request of
67108865 bytes. -/
theorem operator_delete_calls_free_once_witness :
    (operator_delete (bump_sys (2 ^ 40)) null 1).events = [Event.free_call null] ∧
      (operator_new 64 (bump_sys (2 ^ 40)) 67108865 1).result = Except.ok 1 ∧
      (operator_delete (bump_sys (2 ^ 40)) 1
          (operator_new 64 (bump_sys (2 ^ 40)) 67108865 1).heap).events
        = [Event.free_call 1] :=
  ⟨(operator_delete_calls_free_once (bump_sys (2 ^ 40)) null 1).1, rfl,
    ((operator_delete_calls_free_once (bump_sys (2 ^ 40)) 1 1).2.2.2.2.2
      64 67108865 1 (by rfl)).1⟩

/-! ## The diagnostic line -/

/-- C8: for every size above 67108864 the logged line is `new(`, a field and
`)` with a newline, where the field is made of the characters `0` to `9`
only, does not start with `0`, and reads back in base 10 as the requested
size; so two logged requests with the same output have the same size. -/
theorem logged_size_field_is_plain_decimal {σ₁ σ₂ : Type} (w : Nat) (sys₁ : Sys σ₁)
    (sys₂ : Sys σ₂) (sz sz2 : Nat) (h₁ : σ₁) (h₂ : σ₂)
    (hw : 32 ≤ w) (hsz : 67108864 < sz) (hsz2 : 67108864 < sz2) :
    stderr_writes (operator_new w sys₁ sz h₁).events
        = [String.mk ("new(".data ++ fmt_zu sz ++ ")\n".data)] ∧
      (∀ c ∈ fmt_zu sz, c ∈ "0123456789".data) ∧
      (fmt_zu sz).head? ≠ some '0' ∧
      parse_dec (fmt_zu sz) = some sz ∧
      (stderr_writes (operator_new w sys₁ sz h₁).events
          = stderr_writes (operator_new w sys₂ sz2 h₂).events → sz = sz2) := by
  have hcmp : sz > THRESHOLD w := by rw [THRESHOLD_eq w hw]; omega
  have hcmp2 : sz2 > THRESHOLD w := by rw [THRESHOLD_eq w hw]; omega
  refine ⟨?_, fmt_zu_mem_decimal sz, fmt_zu_head sz (by omega), parse_dec_fmt_zu sz,
    fun heq => ?_⟩
  · rw [operator_new_stderr, if_pos hcmp]
    rfl
  · rw [operator_new_stderr, operator_new_stderr, if_pos hcmp, if_pos hcmp2] at heq
    exact expected_line_injective sz sz2 (List.singleton_inj.mp heq)

/-- C8 at `sz = 67108865`: the field is `67108865` and reads back as the
size. -/
theorem logged_size_field_is_plain_decimal_witness :
    (32 ≤ 64 ∧ 67108864 < 67108865) ∧
      fmt_zu 67108865 = "67108865".data ∧
      parse_dec (fmt_zu 67108865) = some 67108865 :=
  ⟨⟨by decide, by decide⟩, by decide,
    (logged_size_field_is_plain_decimal 64 failing_sys failing_sys 67108865 67108865 () ()
      (by decide) (by decide) (by decide)).2.2.2.1⟩

/-! ## Requests of zero bytes -/

/-- C9, as stated, fails: on a platform whose `malloc` answers a request of
zero bytes with `null`, `operator new(0)` throws `std::bad_alloc` and
returns no pointer. -/
theorem operator_new_zero_counterexample :
    (operator_new 64 (zero_null_sys 4096) 0 1).result = Except.error Exn.bad_alloc ∧
      ¬ ∃ p, p ≠ null ∧ (operator_new 64 (zero_null_sys 4096) 0 1).result = Except.ok p :=
  ⟨rfl, fun ⟨_, _, hp⟩ => by cases hp⟩

/-- C9, amended: a request of zero bytes is passed on unchanged: for every
allocation primitive, `operator new(0)` writes nothing to standard error and
calls the primitive once with size 0; it returns the primitive's pointer when
that is not `null`, and throws `std::bad_alloc` when the primitive returns
`null` for zero bytes. -/
theorem operator_new_zero_forwarded {σ : Type} (w : Nat) (sys : Sys σ) (h : σ) :
    stderr_writes (operator_new w sys 0 h).events = [] ∧
      (operator_new w sys 0 h).events = [Event.malloc_call 0] ∧
      ((sys.malloc 0 h).1 ≠ null →
        (operator_new w sys 0 h).result = Except.ok (sys.malloc 0 h).1) ∧
      ((sys.malloc 0 h).1 = null →
        (operator_new w sys 0 h).result = Except.error Exn.bad_alloc) := by
  have hcmp : ¬ 0 > THRESHOLD w := by omega
  refine ⟨?_, ?_, fun hp => ?_, fun hp => ?_⟩
  · rw [operator_new_stderr, if_neg hcmp]
  · rw [operator_new_events, if_neg hcmp]
    rfl
  · rw [operator_new_result, if_neg hp]
  · rw [operator_new_result, if_pos hp]

/-- C9, amended, on an allocator that serves zero bytes with a one-byte
block. -/
theorem operator_new_zero_forwarded_witness :
    ((bump_sys 4096).malloc 0 1).1 ≠ null ∧
      (operator_new 64 (bump_sys 4096) 0 1).result = Except.ok 1 ∧
      stderr_writes (operator_new 64 (bump_sys 4096) 0 1).events = [] :=
  ⟨by decide, (operator_new_zero_forwarded 64 (bump_sys 4096) 1).2.2.1 (by decide),
    (operator_new_zero_forwarded 64 (bump_sys 4096) 1).1⟩

/-! ## The threshold expression -/

/-- C10: `64 * 1024 * 1024` evaluated in 32-bit `int` arithmetic overflows at
neither product and equals 67108864, which is `2 ^ 26`; converted to a
`std::size_t` of any width `w ≥ 32` it is still 67108864, and for every
`sz < 2 ^ w` the comparison of the source on values modulo `2 ^ w` agrees
with `sz > 67108864` on natural numbers. -/
theorem threshold_expression_exact (w sz : Nat) (hw : 32 ≤ w) (hsz : sz < 2 ^ w) :
    int_mul_overflows 64 1024 = false ∧
      int_mul_overflows (int_mul 64 1024) 1024 = false ∧
      THRESHOLD_int = 67108864 ∧
      THRESHOLD_int = 2 ^ 26 ∧
      THRESHOLD w = 67108864 ∧
      (sz % 2 ^ w > THRESHOLD w ↔ sz > 67108864) := by
  refine ⟨by decide, by decide, by decide, by decide, THRESHOLD_eq w hw, ?_⟩
  rw [THRESHOLD_eq w hw, Nat.mod_eq_of_lt hsz]

/-- C10 for a 64-bit and a 32-bit `std::size_t`, just above and at the
threshold. -/
theorem threshold_expression_exact_witness :
    (32 ≤ 64 ∧ 67108865 < 2 ^ 64) ∧
      (67108865 % 2 ^ 64 > THRESHOLD 64 ↔ 67108865 > 67108864) ∧
      (32 ≤ 32 ∧ 67108864 < 2 ^ 32) ∧
      (67108864 % 2 ^ 32 > THRESHOLD 32 ↔ 67108864 > 67108864) :=
  ⟨⟨by decide, by decide⟩,
    (threshold_expression_exact 64 67108865 (by decide) (by decide)).2.2.2.2.2,
    ⟨by decide, by decide⟩,
    (threshold_expression_exact 32 67108864 (by decide) (by decide)).2.2.2.2.2⟩

end LogNew
